import Mathlib
/-!
Verification of the Rack Firmware Deployment Orchestrator
(`crates/api/src/handlers/rack_firmware.rs`) against its specification.

The Rust handler is shallowly embedded: pure helpers become Lean functions,
the stateful parts (database record, cache filesystem, HTTP traffic, RMS
dispatch) become explicit state passing with request/effect logs.  Filesystem
paths are modelled as lists of components, mirroring `PathBuf` (joining an
empty component yields a trailing separator, and `exists()` on such a path
checks the directory).
-/
namespace RackFw
/-- Model of `serde_json::Value`. -/
inductive Json where
  | null
  | bool (b : Bool)
  | num (n : Int)
  | str (s : String)
  | arr (elems : List Json)
  | obj (fields : List (String × Json))
  deriving Inhabited
/-- `Value::get(key)`: field lookup on an object, `None` otherwise. -/
def Json.get : Json → String → Option Json
  | .obj fields, k => (fields.find? (fun p => p.1 == k)).map (fun p => p.2)
  | _, _ => none
/-- `Value::as_str()`. -/
def Json.asStr : Json → Option String
  | .str s => some s
  | _ => none
/-- `Value::as_array()`. -/
def Json.asArr : Json → Option (List Json)
  | .arr xs => some xs
  | _ => none
/-- `struct FirmwareSubComponent`. -/
structure FirmwareSubComponent where
  component : String
  version : String
  skuid : Option String
  deriving Repr, DecidableEq
/-- `struct FirmwareLocation`. -/
structure FirmwareLocation where
  location : String
  location_type : String
  firmware_type : Option String
  deriving Repr, DecidableEq
/-- `struct FirmwareComponent`. -/
structure FirmwareComponent where
  component : String
  bundle : Option String
  version : Option String
  component_type : Option String
  locations : List FirmwareLocation
  subcomponents : List FirmwareSubComponent
  deriving Repr, DecidableEq
/-- `struct BoardSkuFirmware`. -/
structure BoardSkuFirmware where
  sku_id : String
  name : String
  sku_type : String
  firmware_components : List FirmwareComponent
  deriving Repr, DecidableEq
/-- `struct ParsedFirmwareComponents`. -/
structure ParsedFirmwareComponents where
  board_skus : List BoardSkuFirmware
  deriving Repr, DecidableEq
/-- The `Locations[]` loop body of `parse_rack_firmware_json`: keep only
entries whose declared `Type` is `"Firmware"`. -/
def parseLocation (location : Json) : Option FirmwareLocation :=
  let firmware_type := (location.get "Type").bind Json.asStr
  if firmware_type == some "Firmware" then
    some { location := ((location.get "Location").bind Json.asStr).getD ""
           location_type := ((location.get "LocationType").bind Json.asStr).getD ""
           firmware_type := firmware_type }
  else none
/-- The `SubComponents[]` loop body: keep only entries with non-empty
component name and version. -/
def parseSubComponent (subcomp : Json) : Option FirmwareSubComponent :=
  let sub_component := ((subcomp.get "Component").bind Json.asStr).getD ""
  let sub_version := ((subcomp.get "Version").bind Json.asStr).getD ""
  let sub_skuid := (subcomp.get "SKUID").bind Json.asStr
  if !sub_component.isEmpty && !sub_version.isEmpty then
    some { component := sub_component, version := sub_version, skuid := sub_skuid }
  else none
/-- The `Components.Firmware[]` loop body of `parse_rack_firmware_json`. -/
def parseFirmwareComponent (firmware : Json) : FirmwareComponent :=
  { component := ((firmware.get "Component").bind Json.asStr).getD ""
    bundle := (firmware.get "Bundle").bind Json.asStr
    version := (firmware.get "Version").bind Json.asStr
    component_type := (firmware.get "Type").bind Json.asStr
    locations := ((((firmware.get "Locations").bind Json.asArr).getD []).filterMap parseLocation)
    subcomponents :=
      ((((firmware.get "SubComponents").bind Json.asArr).getD []).filterMap parseSubComponent) }
/-- The `BoardSKUs[]` loop body of `parse_rack_firmware_json`. -/
def parseBoardSku (board_sku : Json) : BoardSkuFirmware :=
  { sku_id := ((board_sku.get "SKUID").bind Json.asStr).getD ""
    name := ((board_sku.get "Name").bind Json.asStr).getD ""
    sku_type := ((board_sku.get "Type").bind Json.asStr).getD ""
    firmware_components :=
      ((((board_sku.get "Components").bind (fun c => c.get "Firmware")).bind
        Json.asArr).getD []).map parseFirmwareComponent }
/-- `fn parse_rack_firmware_json` (the source message quotes the field name;
the quotes are elided here). -/
def parse_rack_firmware_json (config : Json) : Except String ParsedFirmwareComponents :=
  match (config.get "BoardSKUs").bind Json.asArr with
  | none => .error "JSON must contain BoardSKUs array"
  | some board_skus => .ok { board_skus := board_skus.map parseBoardSku }
/-- `enum DeviceType`. -/
inductive DeviceType where
  | GB200ComputeTray
  | JulietSwitch
  | PowerShelf
  | Unknown
  deriving Repr, DecidableEq
/-- `GB200_COMPUTE_TRAY_SKUIDS` static allow-list. -/
def GB200_COMPUTE_TRAY_SKUIDS : List String :=
  ["699-24764-0001-TS3", "699-24764-0001-TS1"]
/-- `JULIET_SWITCH_SKUIDS` static allow-list. -/
def JULIET_SWITCH_SKUIDS : List String :=
  ["920-9K36F-00MV-QS1", "692-9K36F-00MV-JQS", "920-9K36F-B4MV-QS1",
   "692-9K36F-B4MV-JD0", "920-9K36F-A5MV-QS1", "692-9K36F-A5MV-JQS",
   "920-9K36N-00MV-QS1", "692-9K36N-00MV-JQS", "920-9K36N-09MV-QS1",
   "692-9K36N-09MV-JSO"]
/-- `str::split(c)` on a character separator, computed on the underlying char
list (the standard library splitter is not kernel-reducible). -/
def splitChars (c : Char) : List Char → List (List Char)
  | [] => [[]]
  | ch :: rest =>
    match splitChars c rest with
    | [] => [[]]
    | seg :: segs => if ch == c then [] :: seg :: segs else (ch :: seg) :: segs
/-- `str::split(c)` as a list of strings. -/
def splitOnChar (c : Char) (s : String) : List String :=
  (splitChars c s.data).map String.mk
/-- `str::trim`: strip leading and trailing whitespace. -/
def trimString (s : String) : String :=
  String.mk (((s.data.dropWhile Char.isWhitespace).reverse.dropWhile
    Char.isWhitespace).reverse)
/-- `str::to_lowercase` (the classified values are ASCII). -/
def lowerString (s : String) : String := String.mk (s.data.map Char.toLower)
/-- The token loop of `get_device_type_from_skuid`: per token, the compute
allow-list is consulted before the switch allow-list. -/
def classifyTokens : List String → DeviceType
  | [] => .Unknown
  | skuid :: rest =>
    if GB200_COMPUTE_TRAY_SKUIDS.contains skuid then .GB200ComputeTray
    else if JULIET_SWITCH_SKUIDS.contains skuid then .JulietSwitch
    else classifyTokens rest
/-- `fn get_device_type_from_skuid`: split on commas, trim, classify. -/
def get_device_type_from_skuid (sku_id : String) : DeviceType :=
  classifyTokens ((splitOnChar ',' sku_id).map trimString)
/-- `fn get_firmware_components_for_device_type`:
`(component_name_to_match, lookup_key, target)` triples per device type. -/
def get_firmware_components_for_device_type (device_type : DeviceType) :
    List (String × String × String) :=
  match device_type with
  | .GB200ComputeTray =>
      [("HMC", "HMC", "/redfish/v1/Chassis/HGX_Chassis_0"),
       ("BMC", "BMC", "FW_BMC_0")]
  | .JulietSwitch =>
      [("BMC+FPGA+EROT", "BMC", "bmc"),
       ("BMC+FPGA+EROT", "FPGA", "fpga"),
       ("BMC+FPGA+EROT", "EROT", "erot"),
       ("SBIOS+EROT", "BIOS", "bios")]
  | .PowerShelf =>
      [("Power Shelf FW", "PowerShelfFW", "TODO_POWERSHELF_TARGET")]
  | .Unknown => []
/-- `struct FirmwareLookupEntry`. -/
structure FirmwareLookupEntry where
  filename : String
  target : String
  component : String
  bundle : String
  firmware_type : String
  version : Option String
  subcomponents : List FirmwareSubComponent
  deriving Repr, DecidableEq
/-- Association-list model of `HashMap` insertion: replaces the value when the
key is present, appends otherwise.  Only key lookup is observable. -/
def insertReplace {α : Type} (m : List (String × α)) (k : String) (v : α) :
    List (String × α) :=
  if m.any (fun p => p.1 == k) then
    m.map (fun p => if p.1 == k then (k, v) else p)
  else m ++ [(k, v)]
/-- `HashMap::get`. -/
def lookupKey {α : Type} (m : List (String × α)) (k : String) : Option α :=
  (m.find? (fun p => p.1 == k)).map (fun p => p.2)
/-- `struct FirmwareLookupTable`. -/
structure FirmwareLookupTable where
  devices : List (String × List (String × FirmwareLookupEntry))
  deriving Repr, DecidableEq
/-- Variant normalization in `build_firmware_lookup_table`: lowercase, default
`"prod"` when `Type` is unspecified. -/
def fw_type_of (fc : FirmwareComponent) : String :=
  (fc.component_type.map lowerString).getD "prod"
/-- `url.split('/').next_back()`: last segment of a `/`-separated string
(always defined, possibly empty). -/
def lastSegment (url : String) : String :=
  ((splitOnChar '/' url).getLast?).getD ""
/-- The `for (match_name, lookup_key, target) in triples { if name == match
{ ... break } }` loop: first triple whose match name equals the component. -/
def findFirstMatchingTriple (component_name : String) :
    List (String × String × String) → Option (String × String × String)
  | [] => none
  | t :: rest =>
    if component_name == t.1 then some t else findFirstMatchingTriple component_name rest
/-- The inner location loop: first location whose type is `"Firmware"`. -/
def findFirstFirmwareLocation : List FirmwareLocation → Option FirmwareLocation
  | [] => none
  | loc :: rest =>
    if loc.firmware_type == some "Firmware" then some loc
    else findFirstFirmwareLocation rest
/-- Main extraction pass of `build_firmware_lookup_table` for one component:
on the first matching triple and the first `Firmware`-typed location, produce
the keyed `FirmwareLookupEntry` with the URL final segment as filename. -/
def mainPassComponent (components_to_extract : List (String × String × String))
    (fc : FirmwareComponent) : Option (String × FirmwareLookupEntry) :=
  match findFirstMatchingTriple fc.component components_to_extract with
  | none => none
  | some t =>
    match findFirstFirmwareLocation fc.locations with
    | none => none
    | some loc =>
      some (t.2.1 ++ "_" ++ fw_type_of fc,
        { filename := lastSegment loc.location
          target := t.2.2
          component := fc.component
          bundle := fc.bundle.getD ""
          firmware_type := fw_type_of fc
          version := fc.version
          subcomponents := fc.subcomponents })
/-- Power-shelf extraction pass of `build_firmware_lookup_table` for one
component: on the first matching power-shelf triple, produce the keyed entry
with an empty filename (subcomponents carry the individual files) and no
location consultation. -/
def powerShelfPassComponent (power_shelf_components : List (String × String × String))
    (fc : FirmwareComponent) : Option (String × FirmwareLookupEntry) :=
  match findFirstMatchingTriple fc.component power_shelf_components with
  | none => none
  | some t =>
    some (t.2.1 ++ "_" ++ fw_type_of fc,
      { filename := ""
        target := t.2.2
        component := fc.component
        bundle := fc.bundle.getD ""
        firmware_type := fw_type_of fc
        version := fc.version
        subcomponents := fc.subcomponents })
/-- The `device_components` map accumulated over one board by the main pass. -/
def deviceBucket (components_to_extract : List (String × String × String))
    (comps : List FirmwareComponent) : List (String × FirmwareLookupEntry) :=
  comps.foldl (fun m fc =>
    match mainPassComponent components_to_extract fc with
    | some kv => insertReplace m kv.1 kv.2
    | none => m) []
/-- The `power_shelf_device_components` map accumulated over one board. -/
def powerShelfBucket (power_shelf_components : List (String × String × String))
    (comps : List FirmwareComponent) : List (String × FirmwareLookupEntry) :=
  comps.foldl (fun m fc =>
    match powerShelfPassComponent power_shelf_components fc with
    | some kv => insertReplace m kv.1 kv.2
    | none => m) []
/-- The display key used when inserting a board bucket; `Unknown` is
unreachable because unknown boards are skipped before this point. -/
def deviceKeyOf : DeviceType → String
  | .GB200ComputeTray => "Compute Node"
  | .JulietSwitch => "Switch Tray"
  | .PowerShelf => "Power Shelf"
  | .Unknown => ""
/-- One iteration of the board loop of `build_firmware_lookup_table`. -/
def buildStep (lookup : FirmwareLookupTable) (board_sku : BoardSkuFirmware) :
    FirmwareLookupTable :=
  let device_type := get_device_type_from_skuid board_sku.sku_id
  if device_type == .Unknown then lookup
  else
    let components_to_extract := get_firmware_components_for_device_type device_type
    let power_shelf_components :=
      if device_type == .GB200ComputeTray then
        get_firmware_components_for_device_type .PowerShelf
      else []
    let device_components := deviceBucket components_to_extract board_sku.firmware_components
    let power_shelf_device_components :=
      powerShelfBucket power_shelf_components board_sku.firmware_components
    let lookup1 :=
      if device_components.isEmpty then lookup
      else { devices := insertReplace lookup.devices (deviceKeyOf device_type) device_components }
    if power_shelf_device_components.isEmpty then lookup1
    else { devices := insertReplace lookup1.devices "Power Shelf" power_shelf_device_components }
/-- `fn build_firmware_lookup_table`. -/
def build_firmware_lookup_table (parsed_components : ParsedFirmwareComponents) :
    FirmwareLookupTable :=
  parsed_components.board_skus.foldl buildStep { devices := [] }
/-- A filesystem path as its sequence of `PathBuf` components; `join` with an
empty final component models the trailing separator produced by
`PathBuf::join("")`. -/
abbrev FsPath := List String
/-- Cache filesystem state: directories and regular files. -/
structure FileSystem where
  dirs : List FsPath
  files : List FsPath
  deriving Repr, DecidableEq
/-- `PathBuf::join`. -/
def joinPath (dir : FsPath) (fname : String) : FsPath := dir ++ [fname]
/-- `Path::exists` (`stat`): a path with a trailing separator exists exactly
when the directory it names exists. -/
def pathExists (fs : FileSystem) (p : FsPath) : Bool :=
  if p.getLast? == some "" then fs.dirs.contains p.dropLast
  else fs.dirs.contains p || fs.files.contains p
/-- `tokio::fs::write`: record the destination as a regular file. -/
def applyWrite (fs : FileSystem) (written : Option FsPath) : FileSystem :=
  match written with
  | none => fs
  | some p => { fs with files := fs.files ++ [p] }
/-- `create_dir_all` on the cache directory. -/
def ensureDir (fs : FileSystem) (d : FsPath) : FileSystem :=
  if fs.dirs.contains d then fs else { fs with dirs := fs.dirs ++ [d] }
/-- Outcome of one HTTP `send()`: a response with a status code, or a
transport-level error. -/
inductive HttpOutcome where
  | response (status : Nat)
  | transportError
  deriving Repr, DecidableEq
/-- `StatusCode::is_success`: 2xx. -/
def isSuccessStatus (status : Nat) : Bool := 200 ≤ status && status < 300
/-- Environment oracle for one download unit: what each of the two possible
GET attempts would return. -/
structure HttpEnv where
  withoutToken : HttpOutcome
  withToken : HttpOutcome
  deriving Repr, DecidableEq
/-- A GET request as issued on the wire: URL plus optional auth header. -/
structure HttpRequest where
  url : String
  header : Option (String × String)
  deriving Repr, DecidableEq
deriving instance DecidableEq for Except
/-- Observable behaviour of one download unit: requests issued in order, the
unit result, and the file written (if any). -/
structure UnitResult where
  requests : List HttpRequest
  outcome : Except String Unit
  written : Option FsPath
  deriving Repr, DecidableEq
/-- The retry-with-token arm of `download_single_file`: one further GET
carrying `X-JFrog-Art-Api`; its failure (transport or non-2xx) is terminal. -/
def retryWithToken (env : HttpEnv) (url : String) (token : String)
    (dest_path : FsPath) : UnitResult :=
  let firstReq : HttpRequest := { url := url, header := none }
  let retryReq : HttpRequest := { url := url, header := some ("X-JFrog-Art-Api", token) }
  match env.withToken with
  | .transportError =>
    { requests := [firstReq, retryReq]
      outcome := .error "Failed to download with token", written := none }
  | .response status =>
    if isSuccessStatus status then
      { requests := [firstReq, retryReq], outcome := .ok (), written := some dest_path }
    else
      { requests := [firstReq, retryReq]
        outcome := .error "Download failed with status", written := none }
/-- `fn download_single_file`.  `split('/').next_back()` on a string is always
`Some`, so the filename is the (possibly empty) final URL segment; an existing
destination short-circuits with success before any request. -/
def download_single_file (fs : FileSystem) (env : HttpEnv) (url : String)
    (token : String) (dest_dir : FsPath) : UnitResult :=
  let filename := lastSegment url
  let dest_path := joinPath dest_dir filename
  if pathExists fs dest_path then
    { requests := [], outcome := .ok (), written := none }
  else
    let firstReq : HttpRequest := { url := url, header := none }
    match env.withoutToken with
    | .response status =>
      if isSuccessStatus status then
        { requests := [firstReq], outcome := .ok (), written := some dest_path }
      else if status == 401 then
        retryWithToken env url token dest_path
      else
        { requests := [firstReq]
          outcome := .error "Download failed with status", written := none }
    | .transportError => retryWithToken env url token dest_path
/-- One spawned download unit, as collected from the parsed manifest. -/
structure SpawnedUnit where
  url : String
  location_type : String
  component : String
  bundle : Option String
  deriving Repr, DecidableEq
/-- The triple-nested spawn loop of `download_firmware_files`: one unit per
retained firmware location across the whole manifest. -/
def spawnUnits (parsed_components : ParsedFirmwareComponents) : List SpawnedUnit :=
  parsed_components.board_skus.flatMap (fun board_sku =>
    board_sku.firmware_components.flatMap (fun fc =>
      fc.locations.map (fun loc =>
        { url := loc.location, location_type := loc.location_type
          component := fc.component, bundle := fc.bundle })))
/-- A `JoinSet::join_next` result: the unit completed with its `Result`, or
the task panicked. -/
inductive JoinOutcome where
  | completed (r : Except String Unit)
  | panicked
  deriving Repr, DecidableEq
/-- The failure tally of the join loop: a per-file error or a panicked unit
each count as one failed download. -/
def isFailure : JoinOutcome → Bool
  | .completed (.ok _) => false
  | .completed (.error _) => true
  | .panicked => true
/-- `failed_downloads` after joining all units. -/
def countFailures (outs : List JoinOutcome) : Nat := outs.countP isFailure
/-- Behaviour oracle for a download run: per unit index, the HTTP outcomes and
whether the task panics. -/
structure DownloadBehavior where
  http : Nat → HttpEnv
  panics : Nat → Bool
/-- Requests and join outcome observed for one unit of a run. -/
structure UnitRun where
  requests : List HttpRequest
  outcome : JoinOutcome
  deriving Repr, DecidableEq
/-- Sequential model of the concurrent fan-out/join: every unit runs to a
recorded outcome (success, error, or panic) and no failure cancels the rest. -/
def runUnitsFrom (beh : DownloadBehavior) (token : String) (dest_dir : FsPath)
    (idx : Nat) (fs : FileSystem) :
    List SpawnedUnit → FileSystem × List UnitRun
  | [] => (fs, [])
  | u :: rest =>
    if beh.panics idx then
      let out := runUnitsFrom beh token dest_dir (idx + 1) fs rest
      (out.1, { requests := [], outcome := .panicked } :: out.2)
    else
      let r := download_single_file fs (beh.http idx) u.url token dest_dir
      let out := runUnitsFrom beh token dest_dir (idx + 1) (applyWrite fs r.written) rest
      (out.1, { requests := r.requests, outcome := .completed r.outcome } :: out.2)
/-- The `parsed_components` jsonb column: either the parser output stored by
`create`, or the lookup table stored by a successful download run. -/
inductive ParsedColumn where
  | boards (pc : ParsedFirmwareComponents)
  | lookup (t : FirmwareLookupTable)
  deriving Repr, DecidableEq
/-- The persisted `rack_firmware` row (raw manifest column elided; it is never
read by the modelled operations). -/
structure RackFirmwareRecord where
  id : String
  parsed_components : Option ParsedColumn
  available : Bool
  updated_at : Nat
  deriving Repr, DecidableEq
/-- The hard-coded cache root joined with `rack_firmware` and the firmware id,
as in `download_firmware_files`. -/
def firmwareCacheDir (firmware_id : String) : FsPath :=
  ["/forge-boot-artifacts/blobs/internal/fw", "rack_firmware", firmware_id]
/-- `fn download_firmware_files`: ensure the cache directory, fan out one unit
per retained location, join and tally, and iff zero failures persist the
lookup table with `available = true` and a refreshed `updated` timestamp as a
single atomic row update (the source wraps it in one transaction). -/
def download_firmware_files (firmware_id : String)
    (parsed_components : ParsedFirmwareComponents) (token : String)
    (beh : DownloadBehavior) (fs : FileSystem) (record : RackFirmwareRecord)
    (now : Nat) : FileSystem × List UnitRun × RackFirmwareRecord :=
  let firmware_cache_dir := firmwareCacheDir firmware_id
  let fs0 := ensureDir fs firmware_cache_dir
  let out := runUnitsFrom beh token firmware_cache_dir 0 fs0 (spawnUnits parsed_components)
  let failed_downloads := countFailures (out.2.map (fun r => r.outcome))
  (out.1, out.2,
    if failed_downloads == 0 then
      { record with
        parsed_components := some (.lookup (build_firmware_lookup_table parsed_components))
        available := true
        updated_at := now }
    else record)
/-- gRPC `Status` classes produced by the handlers. -/
inductive GrpcError where
  | invalidArgument (msg : String)
  | failedPrecondition (msg : String)
  | internal (msg : String)
  deriving Repr, DecidableEq
/-- Side effects of a completed `create` call: vault credentials stored
(username, token), the row created (id, parsed column), and whether the
background download task was spawned. -/
structure CreateOutcome where
  vault_stored : Option (String × String)
  created_record : Option (String × Option ParsedFirmwareComponents)
  download_spawned : Bool
  deriving Repr, DecidableEq
/-- `fn create` (the request string is taken already JSON-decoded; a
non-string payload fails earlier with `invalid_argument`).  A manifest that
fails `parse_rack_firmware_json` is tolerated: the warning is logged, the row
is created with an empty parsed column, and no download task is spawned. -/
def create (config : Json) (artifactory_token : String) :
    Except GrpcError CreateOutcome :=
  match (config.get "Id").bind Json.asStr with
  | none => .error (.invalidArgument "JSON must contain Id field to use as identifier")
  | some id =>
    if artifactory_token.isEmpty then
      .error (.invalidArgument "Artifactory token is required")
    else
      let parsed :=
        match parse_rack_firmware_json config with
        | .ok p => some p
        | .error _ => none
      .ok { vault_stored := some (id, artifactory_token)
            created_record := some (id, parsed)
            download_spawned := parsed.isSome }
/-- `fn get_firmware_flash_order`. -/
def get_firmware_flash_order (device_type_key : String) : List String :=
  if device_type_key == "Switch Tray" then ["bmc", "fpga", "erot", "bios"]
  else if device_type_key == "Compute Node" then
    ["/redfish/v1/Chassis/HGX_Chassis_0", "FW_BMC_0"]
  else []
/-- `usize::MAX`, the sort key given to targets absent from the flash order. -/
def USIZE_MAX : Nat := 2 ^ 64 - 1
/-- `Iterator::position`. -/
def listPosition {α : Type} (p : α → Bool) : List α → Option Nat
  | [] => none
  | a :: l => if p a then some 0 else (listPosition p l).map (fun i => i + 1)
/-- The sort key of `apply`: position of the target in the flash order,
`usize::MAX` when absent. -/
def flashKey (flash_order : List String) (target : String) : Nat :=
  (listPosition (fun t => t == target) flash_order).getD USIZE_MAX
/-- Stable insertion step: place `a` before the first element whose key is not
smaller. -/
def orderedInsertByKey {α : Type} (key : α → Nat) (a : α) : List α → List α
  | [] => [a]
  | b :: l => if key a ≤ key b then a :: b :: l else b :: orderedInsertByKey key a l
/-- Stable sort by a `Nat` key, the behaviour of `slice::sort_by_key`. -/
def sortByKey {α : Type} (key : α → Nat) : List α → List α
  | [] => []
  | a :: l => orderedInsertByKey key a (sortByKey key l)
/-- The `sort_by_key` call of `apply` on `(component, filename, target)`
triples. -/
def sortFirmwareComponents (lookup_key : String)
    (comps : List (String × String × String)) : List (String × String × String) :=
  sortByKey (fun c => flashKey (get_firmware_flash_order lookup_key) c.2.2) comps
/-- `serde_json::from_value::<FirmwareLookupTable>` on the stored column:
succeeds exactly when the column holds a lookup table. -/
def tryParseLookupTable : Option ParsedColumn → Option FirmwareLookupTable
  | some (.lookup t) => some t
  | _ => none
/-- `fn find_firmware_components_for_device`: all entries of the requested
device bucket whose stored variant matches the requested one
(case-insensitively), as `(component_key, filename, target)` triples. -/
def find_firmware_components_for_device (parsed_components : Option FirmwareLookupTable)
    (hardware_type : String) (firmware_type : String) :
    List (String × String × String) :=
  match parsed_components with
  | none => []
  | some lookup_table =>
    let fw_type := lowerString firmware_type
    match lookupKey lookup_table.devices hardware_type with
    | none => []
    | some device_components =>
      device_components.foldl (fun results p =>
        if lowerString p.2.firmware_type != fw_type then results
        else results ++ [(p.1, p.2.filename, p.2.target)]) []
/-- The rack as resolved from inventory (`rpc::forge::Rack` device lists). -/
structure RackProto where
  compute_trays : List String
  power_shelves : List String
  expected_nvlink_switches : List String
  deriving Repr, DecidableEq
/-- `librms NodeType` values used by `apply`. -/
inductive NodeType where
  | Compute
  | Powershelf
  | Switch
  deriving Repr, DecidableEq
/-- `librms FirmwareTarget`. -/
structure FirmwareTarget where
  target : String
  filename : String
  deriving Repr, DecidableEq
/-- One `update_firmware_by_node_type_async` RPC as issued to the fleet
manager. -/
structure RmsCall where
  node_type : NodeType
  rack_id : String
  firmware_targets : List FirmwareTarget
  activate : Bool
  deriving Repr, DecidableEq
/-- `NodeJobInfo`. -/
structure NodeJobInfo where
  node_id : String
  job_id : String
  deriving Repr, DecidableEq
/-- Fleet-manager response to a batch update call. -/
structure RmsUpdateResponse where
  status : Int
  job_id : String
  total_nodes : Nat
  message : String
  node_jobs : List NodeJobInfo
  deriving Repr, DecidableEq
/-- Modelled from the spec: the numeric value of the external proto enum
variant `ReturnCode::Success` (`librms` is outside this repository; proto
enums number their first variant 0). -/
def returnCodeSuccess : Int := 0
/-- `DeviceUpdateResult`. -/
structure DeviceUpdateResult where
  device_id : String
  device_type : String
  success : Bool
  message : String
  job_id : String
  node_jobs : List NodeJobInfo
  deriving Repr, DecidableEq
/-- `RackFirmwareApplyResponse`. -/
structure RackFirmwareApplyResponse where
  total_updates : Nat
  successful_updates : Nat
  failed_updates : Nat
  device_results : List DeviceUpdateResult
  deriving Repr, DecidableEq
/-- `RackFirmwareApplyRequest`. -/
structure ApplyRequest where
  rack_id : Option String
  firmware_id : String
  firmware_type : String
  deriving Repr, DecidableEq
/-- External collaborators of `apply`: repository lookup, rack inventory, and
the optional fleet-manager client (a response oracle per call). -/
structure ApplyEnv where
  find_config : String → Except String RackFirmwareRecord
  get_rack : String → Except String RackProto
  rms_client : Option (RmsCall → Except String RmsUpdateResponse)
/-- Accumulator of the device-type bucket loop of `apply`. -/
structure BucketState where
  device_results : List DeviceUpdateResult
  successful_updates : Nat
  failed_updates : Nat
  calls : List RmsCall
  deriving Repr
/-- One iteration of the bucket loop of `apply`: resolve, sort into flash
order, and either record a local failure (no entries, no client) or issue
exactly one batch RPC for the bucket. -/
def processBucket (env : ApplyEnv) (req : ApplyRequest) (rack_id : String)
    (parsed : Option ParsedColumn) (st : BucketState)
    (bucket : String × NodeType × String × Bool × Bool) : BucketState :=
  let lookup_key := bucket.1
  let node_type := bucket.2.1
  let display_name := bucket.2.2.1
  let has_devices := bucket.2.2.2.1
  let activate := bucket.2.2.2.2
  if !has_devices then st
  else
    let firmware_components :=
      find_firmware_components_for_device (tryParseLookupTable parsed) lookup_key
        req.firmware_type
    let sorted := sortFirmwareComponents lookup_key firmware_components
    if sorted.isEmpty then
      { st with
        device_results := st.device_results ++
          [{ device_id := rack_id, device_type := display_name, success := false
             message := "No matching firmware found in config for " ++ display_name
             job_id := "", node_jobs := [] }]
        failed_updates := st.failed_updates + 1 }
    else
      match env.rms_client with
      | none =>
        { st with
          device_results := st.device_results ++
            [{ device_id := rack_id, device_type := display_name, success := false
               message := "RMS client not configured", job_id := "", node_jobs := [] }]
          failed_updates := st.failed_updates + 1 }
      | some rms =>
        let firmware_targets : List FirmwareTarget := sorted.map (fun c =>
          { target := c.2.2
            filename := "/forge-boot-artifacts/blobs/internal/fw/rack_firmware/" ++
              req.firmware_id ++ "/" ++ c.2.1 })
        let call : RmsCall :=
          { node_type := node_type, rack_id := rack_id
            firmware_targets := firmware_targets, activate := activate }
        match rms call with
        | .ok response =>
          let success := response.status == returnCodeSuccess
          { device_results := st.device_results ++
              [{ device_id := rack_id, device_type := display_name, success := success
                 message := "Async firmware update initiated for " ++
                   toString response.total_nodes ++ " nodes: " ++ response.message
                 job_id := response.job_id, node_jobs := response.node_jobs }]
            successful_updates := st.successful_updates + (if success then 1 else 0)
            failed_updates := st.failed_updates + (if success then 0 else 1)
            calls := st.calls ++ [call] }
        | .error e =>
          { st with
            device_results := st.device_results ++
              [{ device_id := rack_id, device_type := display_name, success := false
                 message := "RMS API Error: " ++ e, job_id := "", node_jobs := [] }]
            failed_updates := st.failed_updates + 1
            calls := st.calls ++ [call] }
/-- `fn apply`: preconditions (config available, rack non-empty) checked
before the sequential Compute → PowerShelf → Switch bucket loop.  The second
component of the result is the log of RPCs issued to the fleet manager. -/
def apply (env : ApplyEnv) (req : ApplyRequest) :
    Except GrpcError RackFirmwareApplyResponse × List RmsCall :=
  match req.rack_id with
  | none => (.error (.invalidArgument "rack_id is required"), [])
  | some rack_id =>
    match env.find_config req.firmware_id with
    | .error e => (.error (.internal ("Failed to get firmware configuration: " ++ e)), [])
    | .ok fw_config =>
      if !fw_config.available then
        (.error (.failedPrecondition ("Firmware configuration " ++ req.firmware_id ++
          " is not marked as available")), [])
      else
        let parsed := fw_config.parsed_components
        match env.get_rack rack_id with
        | .error e => (.error (.internal ("Failed to get rack: " ++ e)), [])
        | .ok rack =>
          let has_compute_trays := !rack.compute_trays.isEmpty
          let has_power_shelves := !rack.power_shelves.isEmpty
          let has_switches := !rack.expected_nvlink_switches.isEmpty
          if !has_compute_trays && !has_power_shelves && !has_switches then
            (.error (.failedPrecondition ("Rack " ++ rack_id ++ " contains no devices")), [])
          else
            let device_types : List (String × NodeType × String × Bool × Bool) :=
              [("Compute Node", .Compute, "Compute Node", has_compute_trays, true),
               ("Power Shelf", .Powershelf, "Power Shelf", has_power_shelves, false),
               ("Switch Tray", .Switch, "Switch", has_switches, false)]
            let st := device_types.foldl (processBucket env req rack_id parsed)
              { device_results := [], successful_updates := 0, failed_updates := 0
                calls := [] }
            (.ok { total_updates := st.device_results.length
                   successful_updates := st.successful_updates
                   failed_updates := st.failed_updates
                   device_results := st.device_results }, st.calls)
/-- Classifier for precondition failures surfaced by the handlers. -/
def isFailedPrecondition {α : Type} : Except GrpcError α → Bool
  | .error (.failedPrecondition _) => true
  | _ => false
/-! ### Properties of the stable key sort -/
/-- The one-board, one-location manifest whose only URL is empty. -/
def c8Manifest : ParsedFirmwareComponents where
  board_skus :=
    [{ sku_id := "699-24764-0001-TS3"
       name := "B"
       sku_type := ""
       firmware_components :=
         [{ component := "HMC"
            bundle := none
            version := none
            component_type := none
            locations :=
              [{ location := "", location_type := "URL"
                 firmware_type := some "Firmware" }]
            subcomponents := [] }] }]
/-- A download behaviour whose every HTTP attempt would fail, so any network
traffic would surface as a failure. -/
def c8Beh : DownloadBehavior :=
  { http := fun _ => { withoutToken := .transportError, withToken := .transportError }
    panics := fun _ => false }
/-- The freshly created, unavailable config row. -/
def c8Record : RackFirmwareRecord :=
  { id := "f1", parsed_components := none, available := false, updated_at := 0 }
/-- A valid JSON payload carrying an `Id` but no `BoardSKUs` array. -/
def c7Payload : Json := .obj [("Id", .str "cfg-1")]
/-- A repository whose only config is unavailable, over an empty rack. -/
def c2Env : ApplyEnv :=
  { find_config := fun _ =>
      .ok { id := "f", parsed_components := none, available := false, updated_at := 0 }
    get_rack := fun _ =>
      .ok { compute_trays := [], power_shelves := [], expected_nvlink_switches := [] }
    rms_client := none }
/-- A one-board, one-location manifest with a well-formed URL. -/
def c1PC : ParsedFirmwareComponents where
  board_skus :=
    [{ sku_id := "699-24764-0001-TS3"
       name := "Bianca"
       sku_type := "Compute"
       firmware_components :=
         [{ component := "HMC"
            bundle := some "P4975"
            version := some "2.0"
            component_type := none
            locations :=
              [{ location := "http://h/a/hmc.fwpkg", location_type := "URL"
                 firmware_type := some "Firmware" }]
            subcomponents := [] }] }]
/-- All HTTP attempts succeed, no panics. -/
def c1BehOk : DownloadBehavior :=
  { http := fun _ => { withoutToken := .response 200, withToken := .response 200 }
    panics := fun _ => false }
/-- All HTTP attempts would succeed, but every unit panics. -/
def c1BehPanic : DownloadBehavior :=
  { http := fun _ => { withoutToken := .response 200, withToken := .response 200 }
    panics := fun _ => true }
/-- The freshly created, unavailable row for the C1 witness. -/
def c1Rec : RackFirmwareRecord :=
  { id := "fw", parsed_components := none, available := false, updated_at := 0 }
/-- A ComputeTray board whose only component is power-shelf firmware with a
retained `Firmware`-typed location. -/
def c6PowerShelfBoard : BoardSkuFirmware where
  sku_id := "699-24764-0001-TS3"
  name := "Bianca"
  sku_type := "Compute"
  firmware_components :=
    [{ component := "Power Shelf FW"
       bundle := some "P1234"
       version := some "1.0"
       component_type := none
       locations :=
         [{ location := "http://host/repo/psu.fwpkg", location_type := "URL"
            firmware_type := some "Firmware" }]
       subcomponents := [] }]
/-- First ComputeTray board of the C10 witness manifest. -/
def c10Board1 : BoardSkuFirmware where
  sku_id := "699-24764-0001-TS3"
  name := "BiancaA"
  sku_type := "Compute"
  firmware_components :=
    [{ component := "HMC"
       bundle := some "P4975"
       version := some "1.0"
       component_type := none
       locations :=
         [{ location := "http://h/x/hmc-old.fwpkg", location_type := "URL"
            firmware_type := some "Firmware" }]
       subcomponents := [] }]
/-- Second ComputeTray board of the C10 witness manifest. -/
def c10Board2 : BoardSkuFirmware where
  sku_id := "699-24764-0001-TS1"
  name := "BiancaB"
  sku_type := "Compute"
  firmware_components :=
    [{ component := "HMC"
       bundle := some "P4975"
       version := some "2.0"
       component_type := none
       locations :=
         [{ location := "http://h/x/hmc-new.fwpkg", location_type := "URL"
            firmware_type := some "Firmware" }]
       subcomponents := [] }]
/-- Filesystem growth: everything present stays present. -/
def fsLe (fs fs' : FileSystem) : Prop :=
  (∀ d, fs.dirs.contains d = true → fs'.dirs.contains d = true) ∧
  (∀ f, fs.files.contains f = true → fs'.files.contains f = true)
/-- One-board manifest for the C9 witness. -/
def c9PC : ParsedFirmwareComponents where
  board_skus :=
    [{ sku_id := "699-24764-0001-TS3"
       name := "Bianca"
       sku_type := "Compute"
       firmware_components :=
         [{ component := "BMC"
            bundle := some "P4972"
            version := some "1.1"
            component_type := none
            locations :=
              [{ location := "http://h/a/bmc.fwpkg", location_type := "URL"
                 firmware_type := some "Firmware" }]
            subcomponents := [] }] }]
/-- First-run behaviour: all attempts succeed. -/
def c9Beh : DownloadBehavior :=
  { http := fun _ => { withoutToken := .response 200, withToken := .response 200 }
    panics := fun _ => false }
/-- Second-run behaviour: any attempt would fail at the transport level, so a
zero-request run is the only way to avoid failures. -/
def c9Beh2 : DownloadBehavior :=
  { http := fun _ => { withoutToken := .transportError, withToken := .transportError }
    panics := fun _ => false }
/-- The config row used by the C9 witness. -/
def c9Rec : RackFirmwareRecord :=
  { id := "fw", parsed_components := none, available := false, updated_at := 0 }
theorem mem_orderedInsertByKey {α : Type} (key : α → Nat) (a x : α) (l : List α) :
    x ∈ orderedInsertByKey key a l ↔ x = a ∨ x ∈ l := by
  induction l with
  | nil => simp [orderedInsertByKey]
  | cons b l ih =>
    by_cases h : key a ≤ key b
    · simp [orderedInsertByKey, h, List.mem_cons]
    · simp only [orderedInsertByKey, if_neg h, List.mem_cons, ih]
      tauto
theorem pairwise_orderedInsertByKey {α : Type} (key : α → Nat) (a : α) (l : List α)
    (h : l.Pairwise (fun x y => key x ≤ key y)) :
    (orderedInsertByKey key a l).Pairwise (fun x y => key x ≤ key y) := by
  induction l with
  | nil => simp [orderedInsertByKey]
  | cons b l ih =>
    rcases List.pairwise_cons.mp h with ⟨hb, hl⟩
    by_cases hab : key a ≤ key b
    · rw [orderedInsertByKey, if_pos hab]
      refine List.pairwise_cons.mpr ⟨?_, h⟩
      intro x hx
      rcases List.mem_cons.mp hx with rfl | hx
      · exact hab
      · exact le_trans hab (hb x hx)
    · rw [orderedInsertByKey, if_neg hab]
      refine List.pairwise_cons.mpr ⟨?_, ih hl⟩
      intro x hx
      rcases (mem_orderedInsertByKey key a x l).mp hx with rfl | hx
      · exact le_of_not_le hab
      · exact hb x hx
theorem pairwise_sortByKey {α : Type} (key : α → Nat) (l : List α) :
    (sortByKey key l).Pairwise (fun x y => key x ≤ key y) := by
  induction l with
  | nil => simp [sortByKey]
  | cons a l ih =>
    rw [sortByKey]
    exact pairwise_orderedInsertByKey key a _ ih
theorem filter_orderedInsertByKey {α : Type} (key : α → Nat) (v : Nat) (a : α)
    (l : List α) :
    (orderedInsertByKey key a l).filter (fun x => key x == v) =
      (a :: l).filter (fun x => key x == v) := by
  induction l with
  | nil => rfl
  | cons b l ih =>
    by_cases hab : key a ≤ key b
    · rw [orderedInsertByKey, if_pos hab]
    · rw [orderedInsertByKey, if_neg hab]
      have hba : key b < key a := Nat.lt_of_not_le hab
      by_cases hbv : key b = v
      · have hav : ¬(key a = v) := by omega
        simp [List.filter_cons, hbv, hav, ih]
      · simp [List.filter_cons, hbv, ih]
theorem filter_sortByKey {α : Type} (key : α → Nat) (v : Nat) (l : List α) :
    (sortByKey key l).filter (fun x => key x == v) = l.filter (fun x => key x == v) := by
  induction l with
  | nil => rfl
  | cons a l ih =>
    rw [sortByKey, filter_orderedInsertByKey]
    simp [List.filter_cons, ih]
theorem listPosition_lt_length {α : Type} (p : α → Bool) (l : List α) (i : Nat)
    (h : listPosition p l = some i) : i < l.length := by
  induction l generalizing i with
  | nil => simp [listPosition] at h
  | cons a l ih =>
    rw [listPosition] at h
    by_cases hp : p a
    · rw [if_pos hp] at h
      cases h
      simp
    · rw [if_neg hp] at h
      cases hl : listPosition p l with
      | none => rw [hl] at h; simp at h
      | some j =>
        rw [hl] at h
        simp only [Option.map_some'] at h
        cases h
        simpa using Nat.succ_lt_succ (ih j hl)
theorem flash_order_length_le (k : String) : (get_firmware_flash_order k).length ≤ 4 := by
  unfold get_firmware_flash_order
  by_cases h1 : k == "Switch Tray"
  · simp [h1]
  · by_cases h2 : k == "Compute Node"
    · simp [h1, h2]
    · simp [h1, h2]
theorem flashKey_absent_iff (k target : String) :
    listPosition (fun t => t == target) (get_firmware_flash_order k) = none ↔
      flashKey (get_firmware_flash_order k) target = USIZE_MAX := by
  constructor
  · intro h
    simp [flashKey, h]
  · intro h
    cases hl : listPosition (fun t => t == target) (get_firmware_flash_order k) with
    | none => rfl
    | some i =>
      exfalso
      have hlt : i < (get_firmware_flash_order k).length :=
        listPosition_lt_length _ _ _ hl
      have h4 := flash_order_length_le k
      rw [flashKey, hl] at h
      simp only [Option.getD_some] at h
      rw [h] at hlt
      unfold USIZE_MAX at hlt
      omega
/-! ### Claim C3: flash-order sorting in `apply` -/
/-- C3: in every apply bucket, the resolved `(component, filename, target)`
triples are stably sorted by the position of their target in the static
per-device-type flash-order list — output keys are nondecreasing, the
relative order of equal keys (hence the original multiset per key) is
preserved, triples whose target is absent from the list sort after all listed
ones, a Switch Tray bucket with targets {bios, bmc, erot} is dispatched as
[bmc, erot, bios], and the static lists are [bmc, fpga, erot, bios] for
Switch Tray and [/redfish/v1/Chassis/HGX_Chassis_0, FW_BMC_0] for
Compute Node. -/
theorem C3_flash_order_sort :
    (∀ (lookup_key : String) (comps : List (String × String × String)),
        (sortFirmwareComponents lookup_key comps).Pairwise (fun a b =>
          flashKey (get_firmware_flash_order lookup_key) a.2.2 ≤
            flashKey (get_firmware_flash_order lookup_key) b.2.2))
    ∧ (∀ (lookup_key : String) (comps : List (String × String × String)) (v : Nat),
        (sortFirmwareComponents lookup_key comps).filter (fun c =>
            flashKey (get_firmware_flash_order lookup_key) c.2.2 == v) =
          comps.filter (fun c => flashKey (get_firmware_flash_order lookup_key) c.2.2 == v))
    ∧ (∀ (lookup_key : String) (comps : List (String × String × String)),
        (sortFirmwareComponents lookup_key comps).Pairwise (fun a b =>
          listPosition (fun t => t == a.2.2) (get_firmware_flash_order lookup_key) = none →
            listPosition (fun t => t == b.2.2) (get_firmware_flash_order lookup_key) = none))
    ∧ sortFirmwareComponents "Switch Tray"
        [("BIOS_prod", "bios.img", "bios"), ("BMC_prod", "bmc.img", "bmc"),
         ("EROT_prod", "erot.img", "erot")] =
      [("BMC_prod", "bmc.img", "bmc"), ("EROT_prod", "erot.img", "erot"),
       ("BIOS_prod", "bios.img", "bios")]
    ∧ get_firmware_flash_order "Switch Tray" = ["bmc", "fpga", "erot", "bios"]
    ∧ get_firmware_flash_order "Compute Node" =
        ["/redfish/v1/Chassis/HGX_Chassis_0", "FW_BMC_0"] := by
  refine ⟨?_, ?_, ?_, by decide, rfl, rfl⟩
  · intro lookup_key comps
    exact pairwise_sortByKey _ comps
  · intro lookup_key comps v
    exact filter_sortByKey _ v comps
  · intro lookup_key comps
    refine (pairwise_sortByKey
      (fun c => flashKey (get_firmware_flash_order lookup_key) c.2.2) comps).imp ?_
    intro a b hle hnone
    have ha : flashKey (get_firmware_flash_order lookup_key) a.2.2 = USIZE_MAX :=
      (flashKey_absent_iff lookup_key a.2.2).mp hnone
    refine (flashKey_absent_iff lookup_key b.2.2).mpr ?_
    cases hl : listPosition (fun t => t == b.2.2) (get_firmware_flash_order lookup_key) with
    | none => simp [flashKey, hl]
    | some i =>
      exfalso
      have hlt : i < (get_firmware_flash_order lookup_key).length :=
        listPosition_lt_length _ _ _ hl
      have h4 := flash_order_length_le lookup_key
      rw [ha] at hle
      have hb : flashKey (get_firmware_flash_order lookup_key) b.2.2 = i := by
        simp [flashKey, hl]
      rw [hb] at hle
      unfold USIZE_MAX at hle
      omega
/-! ### Claim C5: SKU-id device classification -/
theorem classifyTokens_eq_find (toks : List String) :
    classifyTokens toks =
      (match toks.find? (fun t => GB200_COMPUTE_TRAY_SKUIDS.contains t ||
          JULIET_SWITCH_SKUIDS.contains t) with
       | none => DeviceType.Unknown
       | some t =>
         if GB200_COMPUTE_TRAY_SKUIDS.contains t then DeviceType.GB200ComputeTray
         else DeviceType.JulietSwitch) := by
  induction toks with
  | nil => rfl
  | cons t rest ih =>
    rw [classifyTokens]
    by_cases hc : GB200_COMPUTE_TRAY_SKUIDS.contains t = true
    · have hp : (GB200_COMPUTE_TRAY_SKUIDS.contains t ||
          JULIET_SWITCH_SKUIDS.contains t) = true := by rw [hc]; rfl
      rw [if_pos hc,
        List.find?_cons_of_pos (p := fun t => GB200_COMPUTE_TRAY_SKUIDS.contains t ||
          JULIET_SWITCH_SKUIDS.contains t) rest hp]
      exact (if_pos hc).symm
    · by_cases hs : JULIET_SWITCH_SKUIDS.contains t = true
      · have hp : (GB200_COMPUTE_TRAY_SKUIDS.contains t ||
            JULIET_SWITCH_SKUIDS.contains t) = true := by rw [hs]; simp
        rw [if_neg hc, if_pos hs,
          List.find?_cons_of_pos (p := fun t => GB200_COMPUTE_TRAY_SKUIDS.contains t ||
            JULIET_SWITCH_SKUIDS.contains t) rest hp]
        exact (if_neg hc).symm
      · have hc' : GB200_COMPUTE_TRAY_SKUIDS.contains t = false :=
          Bool.eq_false_iff.mpr hc
        have hs' : JULIET_SWITCH_SKUIDS.contains t = false :=
          Bool.eq_false_iff.mpr hs
        have hp : (GB200_COMPUTE_TRAY_SKUIDS.contains t ||
            JULIET_SWITCH_SKUIDS.contains t) = false := by rw [hc', hs']; rfl
        rw [if_neg hc, if_neg hs, ih,
          List.find?_cons_of_neg (p := fun t => GB200_COMPUTE_TRAY_SKUIDS.contains t ||
            JULIET_SWITCH_SKUIDS.contains t) rest (by simp only []; rw [hp]; simp)]
/-- C5: classification splits the SKU-id on commas, trims each token, and
returns the device type of the first token found in either allow-list,
consulting the ComputeTray list before the SwitchTray list for each token;
with no match the result is Unknown.  In particular
"699-24764-0001-TS3,999-FOO" classifies as a compute tray and "999-FOO"
alone as Unknown. -/
theorem C5_classifier (sku_id : String) :
    get_device_type_from_skuid sku_id =
      (match (((splitOnChar ',' sku_id)).map trimString).find? (fun t =>
          GB200_COMPUTE_TRAY_SKUIDS.contains t || JULIET_SWITCH_SKUIDS.contains t) with
       | none => DeviceType.Unknown
       | some t =>
         if GB200_COMPUTE_TRAY_SKUIDS.contains t then DeviceType.GB200ComputeTray
         else DeviceType.JulietSwitch)
    ∧ get_device_type_from_skuid "699-24764-0001-TS3,999-FOO" = .GB200ComputeTray
    ∧ get_device_type_from_skuid "999-FOO" = .Unknown :=
  ⟨classifyTokens_eq_find _, by decide, by decide⟩
/-! ### Claim C4: auth-fallback retry policy of `download_single_file` -/
/-- C4: for a unit whose destination file does not yet exist, a first attempt
that returns 401 or fails at the transport level triggers exactly one retry
carrying the `X-JFrog-Art-Api` token header; a first attempt with any other
non-2xx status errors with no retry; and a failing retry (transport error or
non-2xx) is terminal. -/
theorem C4_download_retry (fs : FileSystem) (env : HttpEnv) (url token : String)
    (dest_dir : FsPath)
    (hmiss : pathExists fs (joinPath dest_dir (lastSegment url)) = false) :
    ((env.withoutToken = .response 401 ∨ env.withoutToken = .transportError) →
      (download_single_file fs env url token dest_dir).requests =
        [{ url := url, header := none },
         { url := url, header := some ("X-JFrog-Art-Api", token) }])
    ∧ (∀ s : Nat, env.withoutToken = .response s → isSuccessStatus s = false →
        s ≠ 401 →
        (download_single_file fs env url token dest_dir).requests =
          [{ url := url, header := none }] ∧
        (download_single_file fs env url token dest_dir).outcome =
          .error "Download failed with status")
    ∧ ((env.withoutToken = .response 401 ∨ env.withoutToken = .transportError) →
        (env.withToken = .transportError ∨
          (∃ s2 : Nat, env.withToken = .response s2 ∧ isSuccessStatus s2 = false)) →
        ∃ e : String, (download_single_file fs env url token dest_dir).outcome =
          .error e) := by
  have h401 : isSuccessStatus 401 = false := rfl
  refine ⟨?_, ?_, ?_⟩
  · rintro (h | h) <;>
    · cases h2 : env.withToken with
      | response s2 =>
        by_cases hs2 : isSuccessStatus s2 = true
        · simp [download_single_file, retryWithToken, hmiss, h, h2, hs2, h401]
        · simp [download_single_file, retryWithToken, hmiss, h, h2, h401,
            Bool.eq_false_iff.mpr hs2]
      | transportError =>
        simp [download_single_file, retryWithToken, hmiss, h, h2, h401]
  · intro s h hs hne
    have hbe : (s == 401) = false := beq_eq_false_iff_ne.mpr hne
    constructor <;> simp [download_single_file, hmiss, h, hs, hbe]
  · rintro (h | h) (h2 | ⟨s2, h2, hs2⟩)
    · exact ⟨"Failed to download with token",
        by simp [download_single_file, retryWithToken, hmiss, h, h2, h401]⟩
    · exact ⟨"Download failed with status",
        by simp [download_single_file, retryWithToken, hmiss, h, h2, h401, hs2]⟩
    · exact ⟨"Failed to download with token",
        by simp [download_single_file, retryWithToken, hmiss, h, h2, h401]⟩
    · exact ⟨"Download failed with status",
        by simp [download_single_file, retryWithToken, hmiss, h, h2, h401, hs2]⟩
/-! ### Claim C8: a URL with an empty final path segment -/
/-- C8 (divergence from the claim): a unit whose URL yields an empty final
segment indeed issues no request and writes no file, but it does not fail —
the destination path gains a trailing separator, names the already-created
cache directory, and the unit returns success as if cached (the
`ok_or_else("Invalid URL")` guard in the source is unreachable because
`split('/').next_back()` on a string is never `None`).  A run over such a
manifest therefore tallies zero failures and flips `available` to true. -/
theorem C8_empty_segment_unit_succeeds :
    (download_single_file { dirs := [["/cache"]], files := [] }
        { withoutToken := .transportError, withToken := .transportError } "" "tok"
        ["/cache"] =
      { requests := [], outcome := .ok (), written := none })
    ∧ (download_single_file { dirs := [["/cache"]], files := [] }
        { withoutToken := .transportError, withToken := .transportError }
        "http://host/dir/" "tok" ["/cache"] =
      { requests := [], outcome := .ok (), written := none })
    ∧ (download_firmware_files "f1" c8Manifest "tok" c8Beh
        { dirs := [], files := [] } c8Record 7).2.2.available = true
    ∧ countFailures (((download_firmware_files "f1" c8Manifest "tok" c8Beh
        { dirs := [], files := [] } c8Record 7).2.1).map (fun r => r.outcome)) = 0 := by
  refine ⟨by decide, by decide, by decide, by decide⟩
/-! ### Claim C7: create on a manifest missing `BoardSKUs` -/
/-- C7 counterexample: the malformed manifest is not rejected — `create`
succeeds, stores credentials in the vault and a config row (with an empty
parsed column), and spawns no download task — even though
`parse_rack_firmware_json` itself rejects the payload. -/
theorem C7_counterexample :
    create c7Payload "token123" =
      .ok { vault_stored := some ("cfg-1", "token123")
            created_record := some ("cfg-1", none)
            download_spawned := false }
    ∧ parse_rack_firmware_json c7Payload =
        .error "JSON must contain BoardSKUs array" :=
  ⟨rfl, rfl⟩
/-- C7 amended: for every create request whose payload is valid JSON with an
`Id` string and a non-empty token but no top-level `BoardSKUs` array, the
call succeeds rather than failing validation: credentials are stored, the
row is created with an empty parsed column, and no background download task
is spawned (so the config can never become available). -/
theorem C7_amended (config : Json) (token : String) (id : String)
    (hid : (config.get "Id").bind Json.asStr = some id)
    (htok : token.isEmpty = false)
    (hparse : (config.get "BoardSKUs").bind Json.asArr = none) :
    create config token =
      .ok { vault_stored := some (id, token)
            created_record := some (id, none)
            download_spawned := false } := by
  unfold create
  rw [hid]
  simp [htok, parse_rack_firmware_json, hparse]
/-- C7 amended, witnessed at a concrete payload. -/
theorem C7_amended_witness :
    create (.obj [("Id", .str "x")]) "t" =
      .ok { vault_stored := some ("x", "t")
            created_record := some ("x", none)
            download_spawned := false } :=
  C7_amended (.obj [("Id", .str "x")]) "t" "x" rfl rfl rfl
/-- C4, witnessed: at a fresh cache, a 401 first attempt is followed by
exactly one token-carrying retry. -/
theorem C4_download_retry_witness :
    (download_single_file { dirs := [], files := [] }
        { withoutToken := .response 401, withToken := .response 500 }
        "http://h/f.bin" "tok" ["/cache"]).requests =
      [{ url := "http://h/f.bin", header := none },
       { url := "http://h/f.bin", header := some ("X-JFrog-Art-Api", "tok") }] :=
  (C4_download_retry { dirs := [], files := [] }
      { withoutToken := .response 401, withToken := .response 500 }
      "http://h/f.bin" "tok" ["/cache"] (by decide)).1 (Or.inl rfl)
/-! ### Claim C2: apply preconditions -/
/-- C2: when the referenced config is found but not available, or the
resolved rack has no compute trays, power shelves or switches, `apply`
returns a failed-precondition error, issues no fleet-manager RPC, and
produces no response carrying per-bucket results; both checks precede the
bucket loop. -/
theorem C2_apply_preconditions (env : ApplyEnv) (req : ApplyRequest)
    (rid : String) (cfg : RackFirmwareRecord) (rack : RackProto)
    (hrid : req.rack_id = some rid)
    (hcfg : env.find_config req.firmware_id = .ok cfg)
    (h : cfg.available = false ∨
      (env.get_rack rid = .ok rack ∧ rack.compute_trays = [] ∧
        rack.power_shelves = [] ∧ rack.expected_nvlink_switches = [])) :
    (apply env req).2 = [] ∧
    isFailedPrecondition (apply env req).1 = true ∧
    ∀ resp : RackFirmwareApplyResponse, (apply env req).1 ≠ .ok resp := by
  rcases h with hav | ⟨hrack, hc, hp, hs⟩
  · refine ⟨?_, ?_, ?_⟩ <;> simp [apply, hrid, hcfg, hav, isFailedPrecondition]
  · by_cases hav : cfg.available = true
    · refine ⟨?_, ?_, ?_⟩ <;>
        simp [apply, hrid, hcfg, hav, hrack, hc, hp, hs, isFailedPrecondition]
    · have hav' : cfg.available = false := Bool.eq_false_iff.mpr hav
      refine ⟨?_, ?_, ?_⟩ <;> simp [apply, hrid, hcfg, hav', isFailedPrecondition]
/-- C2, witnessed: applying an unavailable config fails precondition with an
empty RPC log. -/
theorem C2_apply_preconditions_witness :
    (apply c2Env { rack_id := some "r", firmware_id := "f", firmware_type := "prod" }).2 =
      [] ∧
    isFailedPrecondition
      (apply c2Env { rack_id := some "r", firmware_id := "f", firmware_type := "prod" }).1 =
      true :=
  have t := C2_apply_preconditions c2Env
    { rack_id := some "r", firmware_id := "f", firmware_type := "prod" } "r"
    { id := "f", parsed_components := none, available := false, updated_at := 0 }
    { compute_trays := [], power_shelves := [], expected_nvlink_switches := [] }
    rfl rfl (Or.inl rfl)
  ⟨t.1, t.2.1⟩
/-! ### Claim C1: the availability invariant of the background run -/
/-- C1: starting from an unavailable config row, the background download run
flips `available` to true iff it tallied zero per-file failures (a panicked
unit counting as a failure); on zero failures the lookup table built from the
same parsed manifest is persisted together with `available = true` and the
refreshed timestamp in one atomic row update, and on any failure the row is
left untouched. -/
theorem C1_availability (firmware_id : String) (pc : ParsedFirmwareComponents)
    (token : String) (beh : DownloadBehavior) (fs : FileSystem)
    (record : RackFirmwareRecord) (now : Nat)
    (havail : record.available = false) :
    ((download_firmware_files firmware_id pc token beh fs record now).2.2.available =
        true ↔
      countFailures
        (((download_firmware_files firmware_id pc token beh fs record now).2.1).map
          (fun r => r.outcome)) = 0)
    ∧ (countFailures
          (((download_firmware_files firmware_id pc token beh fs record now).2.1).map
            (fun r => r.outcome)) = 0 →
        (download_firmware_files firmware_id pc token beh fs record now).2.2 =
          { record with
            parsed_components := some (.lookup (build_firmware_lookup_table pc))
            available := true
            updated_at := now })
    ∧ (countFailures
          (((download_firmware_files firmware_id pc token beh fs record now).2.1).map
            (fun r => r.outcome)) ≠ 0 →
        (download_firmware_files firmware_id pc token beh fs record now).2.2 = record) := by
  simp only [download_firmware_files]
  by_cases h : countFailures ((runUnitsFrom beh token (firmwareCacheDir firmware_id) 0
      (ensureDir fs (firmwareCacheDir firmware_id)) (spawnUnits pc)).2.map
      (fun r => r.outcome)) = 0
  · simp [h]
  · simp [h, havail]
/-- C1, witnessed: a zero-failure run persists the lookup table with
`available = true` and the new timestamp, while an all-panicked run leaves
the row untouched. -/
theorem C1_availability_witness :
    ((download_firmware_files "fw" c1PC "tok" c1BehOk { dirs := [], files := [] }
        c1Rec 9).2.2 =
      { c1Rec with
        parsed_components := some (.lookup (build_firmware_lookup_table c1PC))
        available := true
        updated_at := 9 })
    ∧ ((download_firmware_files "fw" c1PC "tok" c1BehPanic { dirs := [], files := [] }
        c1Rec 9).2.2 = c1Rec) :=
  ⟨(C1_availability "fw" c1PC "tok" c1BehOk { dirs := [], files := [] } c1Rec 9
      rfl).2.1 (by decide),
   (C1_availability "fw" c1PC "tok" c1BehPanic { dirs := [], files := [] } c1Rec 9
      rfl).2.2 (by decide)⟩
/-! ### Claim C6: per-component lookup-table extraction -/
theorem findFirstMatchingTriple_eq (name : String)
    (ts : List (String × String × String)) :
    findFirstMatchingTriple name ts = ts.find? (fun t => name == t.1) := by
  induction ts with
  | nil => rfl
  | cons t ts ih =>
    by_cases h : (name == t.1) = true
    · rw [findFirstMatchingTriple, if_pos h,
        List.find?_cons_of_pos (p := fun t => name == t.1) ts h]
    · rw [findFirstMatchingTriple, if_neg h, ih,
        List.find?_cons_of_neg (p := fun t => name == t.1) ts h]
theorem findFirstFirmwareLocation_eq (locs : List FirmwareLocation) :
    findFirstFirmwareLocation locs =
      locs.find? (fun loc => loc.firmware_type == some "Firmware") := by
  induction locs with
  | nil => rfl
  | cons loc locs ih =>
    by_cases h : (loc.firmware_type == some "Firmware") = true
    · rw [findFirstFirmwareLocation, if_pos h,
        List.find?_cons_of_pos (p := fun loc => loc.firmware_type == some "Firmware")
          locs h]
    · rw [findFirstFirmwareLocation, if_neg h, ih,
        List.find?_cons_of_neg (p := fun loc => loc.firmware_type == some "Firmware")
          locs h]
/-- C6 counterexample: the Power Shelf bucket entry extracted from a
ComputeTray board is not built by the same filename rule — its filename is
the empty string, not the final path segment "psu.fwpkg" of the first retained `Firmware`-typed location. -/
theorem C6_counterexample :
    ((lookupKey (build_firmware_lookup_table ⟨[c6PowerShelfBoard]⟩).devices
        "Power Shelf").bind (fun bucket => lookupKey bucket "PowerShelfFW_prod")).map
      (fun entry => entry.filename) = some ""
    ∧ lastSegment "http://host/repo/psu.fwpkg" = "psu.fwpkg"
    ∧ ((lookupKey (build_firmware_lookup_table ⟨[c6PowerShelfBoard]⟩).devices
        "Power Shelf").bind (fun bucket => lookupKey bucket "PowerShelfFW_prod")).map
      (fun entry => entry.filename) ≠
        some (lastSegment "http://host/repo/psu.fwpkg") := by
  refine ⟨by decide, by decide, by decide⟩
/-- C6 amended: variants are lowercased with default "prod"; a component
matching a triple of the device table (the first matching triple) yields an
entry under key `lookup_key ++ "_" ++ variant` whose filename is the final
path segment of the first retained `Firmware`-typed location; for a
ComputeTray board a second pass over the same components with the PowerShelf
triples fills a separate "Power Shelf" bucket whose entries share the key
format and metadata fields but carry an empty filename and are inserted
without consulting locations. -/
theorem C6_amended :
    (∀ (triples : List (String × String × String)) (fc : FirmwareComponent),
      mainPassComponent triples fc =
        (match triples.find? (fun t => fc.component == t.1) with
         | none => none
         | some t =>
           match fc.locations.find?
               (fun loc => loc.firmware_type == some "Firmware") with
           | none => none
           | some loc =>
             some (t.2.1 ++ "_" ++ fw_type_of fc,
               { filename := lastSegment loc.location
                 target := t.2.2
                 component := fc.component
                 bundle := fc.bundle.getD ""
                 firmware_type := fw_type_of fc
                 version := fc.version
                 subcomponents := fc.subcomponents })))
    ∧ (∀ fc : FirmwareComponent, fc.component_type = none → fw_type_of fc = "prod")
    ∧ (∀ (fc : FirmwareComponent) (s : String), fc.component_type = some s →
        fw_type_of fc = lowerString s)
    ∧ (∀ fc : FirmwareComponent,
        powerShelfPassComponent (get_firmware_components_for_device_type .PowerShelf)
            fc =
          if fc.component == "Power Shelf FW" then
            some ("PowerShelfFW_" ++ fw_type_of fc,
              { filename := ""
                target := "TODO_POWERSHELF_TARGET"
                component := fc.component
                bundle := fc.bundle.getD ""
                firmware_type := fw_type_of fc
                version := fc.version
                subcomponents := fc.subcomponents })
          else none) := by
  refine ⟨?_, ?_, ?_, ?_⟩
  · intro triples fc
    rw [mainPassComponent, findFirstMatchingTriple_eq, findFirstFirmwareLocation_eq]
  · intro fc h
    rw [fw_type_of, h]
    rfl
  · intro fc s h
    rw [fw_type_of, h]
    rfl
  · intro fc
    by_cases h : (fc.component == "Power Shelf FW") = true
    · rw [if_pos h]
      rw [powerShelfPassComponent, get_firmware_components_for_device_type,
        findFirstMatchingTriple, if_pos h]
      rfl
    · rw [if_neg h]
      rw [powerShelfPassComponent, get_firmware_components_for_device_type,
        findFirstMatchingTriple, if_neg h, findFirstMatchingTriple]
/-- C6 amended, witnessed: an HMC component with an unspecified variant
defaults to "prod", and the power-shelf pass maps a "Power Shelf FW"
component to the empty-filename entry. -/
theorem C6_amended_witness :
    fw_type_of
        { component := "HMC", bundle := none, version := none, component_type := none
          locations := [], subcomponents := [] } = "prod"
    ∧ powerShelfPassComponent (get_firmware_components_for_device_type .PowerShelf)
        { component := "Power Shelf FW", bundle := none, version := none
          component_type := none, locations := [], subcomponents := [] } =
      some ("PowerShelfFW_prod",
        { filename := "", target := "TODO_POWERSHELF_TARGET"
          component := "Power Shelf FW", bundle := "", firmware_type := "prod"
          version := none, subcomponents := [] }) :=
  ⟨C6_amended.2.1
      { component := "HMC", bundle := none, version := none, component_type := none
        locations := [], subcomponents := [] } rfl,
   by
    rw [C6_amended.2.2.2
      { component := "Power Shelf FW", bundle := none, version := none
        component_type := none, locations := [], subcomponents := [] }]
    decide⟩
/-! ### Claim C10: whole-bucket replacement on duplicate device keys -/
theorem lookupKey_nil {α : Type} (k : String) :
    lookupKey ([] : List (String × α)) k = none := rfl
theorem lookupKey_cons {α : Type} (a : String × α) (l : List (String × α))
    (k : String) :
    lookupKey (a :: l) k = if a.1 == k then some a.2 else lookupKey l k := by
  by_cases h : (a.1 == k) = true
  · simp [lookupKey, List.find?_cons_of_pos (p := fun p => p.1 == k) l h, h]
  · simp [lookupKey, List.find?_cons_of_neg (p := fun p => p.1 == k) l h, h]
theorem lookupKey_map_replace {α : Type} (m : List (String × α)) (k : String) (v : α)
    (h : m.any (fun p => p.1 == k) = true) :
    lookupKey (m.map (fun p => if p.1 == k then (k, v) else p)) k = some v := by
  induction m with
  | nil => simp at h
  | cons p m ih =>
    by_cases hp : p.1 = k
    · simp [lookupKey_cons, hp]
    · have hpb : (p.1 == k) = false := beq_eq_false_iff_ne.mpr hp
      have h' : m.any (fun p => p.1 == k) = true := by
        rcases Bool.or_eq_true_iff.mp (List.any_cons ▸ h) with hh | hh
        · rw [hpb] at hh
          exact absurd hh (by simp)
        · exact hh
      simp [lookupKey_cons, hp]
      simpa using ih h'
theorem lookupKey_append_single {α : Type} (m : List (String × α)) (k : String)
    (v : α) (h : m.any (fun p => p.1 == k) = false) :
    lookupKey (m ++ [(k, v)]) k = some v := by
  induction m with
  | nil => simp [lookupKey_cons]
  | cons p m ih =>
    rcases Bool.or_eq_false_iff.mp (List.any_cons ▸ h) with ⟨hp, hm⟩
    have hp' : ¬(p.1 = k) := beq_eq_false_iff_ne.mp hp
    simp [lookupKey_cons, hp']
    simpa using ih hm
theorem lookupKey_insertReplace_self {α : Type} (m : List (String × α)) (k : String)
    (v : α) : lookupKey (insertReplace m k v) k = some v := by
  rw [insertReplace]
  by_cases h : m.any (fun p => p.1 == k) = true
  · rw [if_pos h]
    exact lookupKey_map_replace m k v h
  · rw [if_neg h]
    exact lookupKey_append_single m k v (Bool.eq_false_iff.mpr h)
theorem lookupKey_map_replace_ne {α : Type} (m : List (String × α)) (k k' : String)
    (v : α) (hne : ¬(k' = k)) :
    lookupKey (m.map (fun p => if p.1 == k' then (k', v) else p)) k = lookupKey m k := by
  induction m with
  | nil => rfl
  | cons p m ih =>
    by_cases hp : p.1 = k'
    · have hpk : ¬(p.1 = k) := by
        rw [hp]
        exact hne
      simp [lookupKey_cons, hp, hne, hpk]
      simpa using ih
    · by_cases hpk : p.1 = k
      · simp [lookupKey_cons, hp, hpk, Ne.symm hne]
      · simp [lookupKey_cons, hp, hpk]
        simpa using ih
theorem lookupKey_append_single_ne {α : Type} (m : List (String × α)) (k k' : String)
    (v : α) (hne : ¬(k' = k)) :
    lookupKey (m ++ [(k', v)]) k = lookupKey m k := by
  induction m with
  | nil => simp [lookupKey_cons, lookupKey_nil, hne]
  | cons p m ih =>
    by_cases hpk : p.1 = k
    · simp [lookupKey_cons, hpk]
    · simp [lookupKey_cons, hpk]
      exact ih
theorem lookupKey_insertReplace_ne {α : Type} (m : List (String × α)) (k k' : String)
    (v : α) (hne : k ≠ k') :
    lookupKey (insertReplace m k' v) k = lookupKey m k := by
  rw [insertReplace]
  by_cases h : m.any (fun p => p.1 == k') = true
  · rw [if_pos h]
    exact lookupKey_map_replace_ne m k k' v (Ne.symm hne)
  · rw [if_neg h]
    exact lookupKey_append_single_ne m k k' v (Ne.symm hne)
theorem powerShelfBucket_nil_triples (comps : List FirmwareComponent) :
    powerShelfBucket [] comps = [] := by
  have step : ∀ fc : FirmwareComponent, powerShelfPassComponent [] fc = none :=
    fun _ => rfl
  induction comps with
  | nil => rfl
  | cons fc comps ih =>
    simp only [powerShelfBucket, List.foldl_cons, step] at ih ⊢
    exact ih
theorem buildStep_lookup_main (L : FirmwareLookupTable) (b : BoardSkuFirmware)
    (dt : DeviceType) (hb : get_device_type_from_skuid b.sku_id = dt)
    (hdt : dt ≠ .Unknown)
    (hne : deviceBucket (get_firmware_components_for_device_type dt)
      b.firmware_components ≠ []) :
    lookupKey (buildStep L b).devices (deviceKeyOf dt) =
      some (deviceBucket (get_firmware_components_for_device_type dt)
        b.firmware_components) := by
  have hdc : (deviceBucket (get_firmware_components_for_device_type dt)
      b.firmware_components).isEmpty = false := by
    rw [List.isEmpty_eq_false]
    exact hne
  cases dt with
  | Unknown => exact absurd rfl hdt
  | GB200ComputeTray =>
    by_cases hps : (powerShelfBucket
        (get_firmware_components_for_device_type .PowerShelf)
        b.firmware_components).isEmpty = true
    · simp only [buildStep, hb]
      simp [hdc, hps]
      exact lookupKey_insertReplace_self _ _ _
    · have hps' := Bool.eq_false_iff.mpr hps
      simp only [buildStep, hb]
      simp [hdc, hps']
      rw [lookupKey_insertReplace_ne _ _ _ _ (by decide)]
      exact lookupKey_insertReplace_self _ _ _
  | JulietSwitch =>
    simp only [buildStep, hb]
    simp [hdc, powerShelfBucket_nil_triples]
    exact lookupKey_insertReplace_self _ _ _
  | PowerShelf =>
    simp only [buildStep, hb]
    simp [hdc, powerShelfBucket_nil_triples]
    exact lookupKey_insertReplace_self _ _ _
/-- The power-shelf insertion of a ComputeTray board lands under the
"Power Shelf" key, replacing whatever was there. -/
theorem buildStep_lookup_ps (L : FirmwareLookupTable) (b : BoardSkuFirmware)
    (hb : get_device_type_from_skuid b.sku_id = .GB200ComputeTray)
    (hne : powerShelfBucket (get_firmware_components_for_device_type .PowerShelf)
      b.firmware_components ≠ []) :
    lookupKey (buildStep L b).devices "Power Shelf" =
      some (powerShelfBucket (get_firmware_components_for_device_type .PowerShelf)
        b.firmware_components) := by
  have hps : (powerShelfBucket (get_firmware_components_for_device_type .PowerShelf)
      b.firmware_components).isEmpty = false := by
    rw [List.isEmpty_eq_false]
    exact hne
  by_cases hdc : (deviceBucket
      (get_firmware_components_for_device_type .GB200ComputeTray)
      b.firmware_components).isEmpty = true
  · simp only [buildStep, hb]
    simp [hdc, hps]
    exact lookupKey_insertReplace_self _ _ _
  · have hdc' := Bool.eq_false_iff.mpr hdc
    simp only [buildStep, hb]
    simp [hdc', hps]
    exact lookupKey_insertReplace_self _ _ _
/-- C10: in a manifest with two boards classifying to the same device type,
`build_firmware_lookup_table` inserts each complete bucket under the same
device key, so the bucket of the later board replaces (not merges with) the
bucket of the earlier board; likewise for the embedded "Power Shelf" bucket of ComputeTray
boards. -/
theorem C10_bucket_replacement (b1 b2 : BoardSkuFirmware) (dt : DeviceType)
    (h1 : get_device_type_from_skuid b1.sku_id = dt)
    (h2 : get_device_type_from_skuid b2.sku_id = dt)
    (hdt : dt ≠ .Unknown)
    (hne2 : deviceBucket (get_firmware_components_for_device_type dt)
      b2.firmware_components ≠ []) :
    (lookupKey (build_firmware_lookup_table ⟨[b1, b2]⟩).devices (deviceKeyOf dt) =
      some (deviceBucket (get_firmware_components_for_device_type dt)
        b2.firmware_components))
    ∧ (get_device_type_from_skuid b2.sku_id = .GB200ComputeTray →
        powerShelfBucket (get_firmware_components_for_device_type .PowerShelf)
          b2.firmware_components ≠ [] →
        lookupKey (build_firmware_lookup_table ⟨[b1, b2]⟩).devices "Power Shelf" =
          some (powerShelfBucket (get_firmware_components_for_device_type .PowerShelf)
            b2.firmware_components)) := by
  have hbuild : build_firmware_lookup_table ⟨[b1, b2]⟩ =
      buildStep (buildStep { devices := [] } b1) b2 := rfl
  constructor
  · rw [hbuild]
    exact buildStep_lookup_main _ b2 dt h2 hdt hne2
  · intro hb2 hps
    rw [hbuild]
    exact buildStep_lookup_ps _ b2 hb2 hps
/-- C10, witnessed: with two ComputeTray boards the persisted "Compute Node"
bucket is exactly the bucket of the second board. -/
theorem C10_bucket_replacement_witness :
    lookupKey (build_firmware_lookup_table ⟨[c10Board1, c10Board2]⟩).devices
        "Compute Node" =
      some (deviceBucket
        (get_firmware_components_for_device_type .GB200ComputeTray)
        c10Board2.firmware_components) :=
  (C10_bucket_replacement c10Board1 c10Board2 .GB200ComputeTray (by decide) (by decide)
    (by decide) (by decide)).1
/-! ### Claim C9: existence-based download idempotence -/
theorem fsLe_refl (fs : FileSystem) : fsLe fs fs := ⟨fun _ h => h, fun _ h => h⟩
theorem fsLe_trans {a b c : FileSystem} (h1 : fsLe a b) (h2 : fsLe b c) : fsLe a c :=
  ⟨fun d h => h2.1 d (h1.1 d h), fun f h => h2.2 f (h1.2 f h)⟩
theorem pathExists_mono {fs fs' : FileSystem} (h : fsLe fs fs') (p : FsPath)
    (hp : pathExists fs p = true) : pathExists fs' p = true := by
  rw [pathExists] at hp ⊢
  by_cases hl : (p.getLast? == some "") = true
  · rw [if_pos hl] at hp ⊢
    exact h.1 _ hp
  · rw [if_neg hl] at hp ⊢
    rcases Bool.or_eq_true_iff.mp hp with hh | hh
    · exact Bool.or_eq_true_iff.mpr (Or.inl (h.1 _ hh))
    · exact Bool.or_eq_true_iff.mpr (Or.inr (h.2 _ hh))
theorem applyWrite_dirs (fs : FileSystem) (w : Option FsPath) :
    (applyWrite fs w).dirs = fs.dirs := by
  cases w <;> rfl
theorem fsLe_applyWrite (fs : FileSystem) (w : Option FsPath) :
    fsLe fs (applyWrite fs w) := by
  cases w with
  | none => exact fsLe_refl fs
  | some p =>
    refine ⟨fun d h => h, fun f h => ?_⟩
    simp only [applyWrite]
    simp at h ⊢
    exact Or.inl h
theorem fsLe_runUnitsFrom (beh : DownloadBehavior) (token : String)
    (dest_dir : FsPath) (units : List SpawnedUnit) (idx : Nat) (fs : FileSystem) :
    fsLe fs (runUnitsFrom beh token dest_dir idx fs units).1 := by
  induction units generalizing idx fs with
  | nil => exact fsLe_refl fs
  | cons u rest ih =>
    rw [runUnitsFrom]
    by_cases hp : beh.panics idx = true
    · rw [if_pos hp]
      exact ih (idx + 1) fs
    · rw [if_neg hp]
      exact fsLe_trans (fsLe_applyWrite fs _) (ih (idx + 1) _)
theorem ensureDir_contains (fs : FileSystem) (d : FsPath) :
    (ensureDir fs d).dirs.contains d = true := by
  rw [ensureDir]
  by_cases h : fs.dirs.contains d = true
  · rw [if_pos h]
    exact h
  · rw [if_neg h]
    simp
theorem pathExists_after_write (fs : FileSystem) (dest_dir : FsPath) (fname : String)
    (hdir : fs.dirs.contains dest_dir = true) :
    pathExists { fs with files := fs.files ++ [joinPath dest_dir fname] }
      (joinPath dest_dir fname) = true := by
  rw [pathExists, joinPath]
  by_cases hl : ((dest_dir ++ [fname]).getLast? == some "") = true
  · rw [if_pos hl]
    simp only [List.dropLast_concat]
    exact hdir
  · rw [if_neg hl]
    refine Bool.or_eq_true_iff.mpr (Or.inr ?_)
    simp
theorem retryWithToken_ok_written (env : HttpEnv) (url token : String)
    (dest_path : FsPath)
    (hok : (retryWithToken env url token dest_path).outcome = .ok ()) :
    (retryWithToken env url token dest_path).written = some dest_path := by
  cases h1 : env.withToken with
  | transportError =>
    rw [retryWithToken, h1] at hok
    exact absurd hok (by simp)
  | response s2 =>
    by_cases hs2 : isSuccessStatus s2 = true
    · simp [retryWithToken, h1, hs2]
    · rw [retryWithToken, h1] at hok
      simp [hs2] at hok
theorem download_single_file_ok_dest (fs : FileSystem) (env : HttpEnv)
    (url token : String) (dest_dir : FsPath)
    (hdir : fs.dirs.contains dest_dir = true)
    (hok : (download_single_file fs env url token dest_dir).outcome = .ok ()) :
    pathExists
      (applyWrite fs (download_single_file fs env url token dest_dir).written)
      (joinPath dest_dir (lastSegment url)) = true := by
  by_cases hex : pathExists fs (joinPath dest_dir (lastSegment url)) = true
  · have hres : download_single_file fs env url token dest_dir =
        { requests := [], outcome := .ok (), written := none } := by
      simp [download_single_file, hex]
    rw [hres]
    exact hex
  · have hex' : pathExists fs (joinPath dest_dir (lastSegment url)) = false :=
      Bool.eq_false_iff.mpr hex
    have hwr : (download_single_file fs env url token dest_dir).written =
        some (joinPath dest_dir (lastSegment url)) := by
      cases h0 : env.withoutToken with
      | response s =>
        by_cases hs : isSuccessStatus s = true
        · simp [download_single_file, hex', h0, hs]
        · by_cases h401 : (s == 401) = true
          · have hretry : download_single_file fs env url token dest_dir =
                retryWithToken env url token (joinPath dest_dir (lastSegment url)) := by
              simp [download_single_file, hex', h0, hs, h401,
                Bool.eq_false_iff.mpr hs]
            rw [hretry] at hok ⊢
            exact retryWithToken_ok_written env url token _ hok
          · have : (download_single_file fs env url token dest_dir).outcome =
                .error "Download failed with status" := by
              simp [download_single_file, hex', h0, hs, h401,
                Bool.eq_false_iff.mpr hs, Bool.eq_false_iff.mpr h401]
            rw [this] at hok
            exact absurd hok (by simp)
      | transportError =>
        have hretry : download_single_file fs env url token dest_dir =
            retryWithToken env url token (joinPath dest_dir (lastSegment url)) := by
          simp [download_single_file, hex', h0]
        rw [hretry] at hok ⊢
        exact retryWithToken_ok_written env url token _ hok
    rw [hwr]
    exact pathExists_after_write fs dest_dir (lastSegment url) hdir
theorem runUnitsFrom_success_dests (beh : DownloadBehavior) (token : String)
    (dest_dir : FsPath) (units : List SpawnedUnit) (idx : Nat) (fs : FileSystem)
    (hdir : fs.dirs.contains dest_dir = true)
    (hall : ∀ r ∈ (runUnitsFrom beh token dest_dir idx fs units).2,
      isFailure r.outcome = false) :
    ∀ u ∈ units, pathExists (runUnitsFrom beh token dest_dir idx fs units).1
      (joinPath dest_dir (lastSegment u.url)) = true := by
  induction units generalizing idx fs with
  | nil =>
    intro u hu
    cases hu
  | cons u rest ih =>
    by_cases hp : beh.panics idx = true
    · exfalso
      have hmem : ({ requests := [], outcome := .panicked } : UnitRun) ∈
          (runUnitsFrom beh token dest_dir idx fs (u :: rest)).2 := by
        rw [runUnitsFrom, if_pos hp]
        exact List.mem_cons_self _ _
      have hcontra := hall _ hmem
      simp [isFailure] at hcontra
    · have hrw : runUnitsFrom beh token dest_dir idx fs (u :: rest) =
          ((runUnitsFrom beh token dest_dir (idx + 1)
              (applyWrite fs
                (download_single_file fs (beh.http idx) u.url token dest_dir).written)
              rest).1,
           { requests :=
               (download_single_file fs (beh.http idx) u.url token dest_dir).requests
             outcome := .completed
               (download_single_file fs (beh.http idx) u.url token dest_dir).outcome } ::
           (runUnitsFrom beh token dest_dir (idx + 1)
              (applyWrite fs
                (download_single_file fs (beh.http idx) u.url token dest_dir).written)
              rest).2) := by
        rw [runUnitsFrom, if_neg hp]
      have houtcome : (download_single_file fs (beh.http idx) u.url token
          dest_dir).outcome = .ok () := by
        have hf := hall _ (by rw [hrw]; exact List.mem_cons_self _ _)
        cases hout : (download_single_file fs (beh.http idx) u.url token
            dest_dir).outcome with
        | ok a => cases a; rfl
        | error e =>
          rw [hout] at hf
          simp [isFailure] at hf
      intro w hw
      rcases List.mem_cons.mp hw with rfl | hw
      · have h1 := download_single_file_ok_dest fs (beh.http idx) w.url token dest_dir
          hdir houtcome
        rw [hrw]
        exact pathExists_mono (fsLe_runUnitsFrom beh token dest_dir rest (idx + 1) _)
          _ h1
      · rw [hrw]
        refine ih (idx + 1)
          (applyWrite fs
            (download_single_file fs (beh.http idx) u.url token dest_dir).written)
          ?_ ?_ w hw
        · rw [applyWrite_dirs]
          exact hdir
        · intro r hr
          exact hall r (by rw [hrw]; exact List.mem_cons_of_mem _ hr)
theorem runUnitsFrom_all_cached (beh : DownloadBehavior) (token : String)
    (dest_dir : FsPath) (units : List SpawnedUnit) (idx : Nat) (fs : FileSystem)
    (hcached : ∀ u ∈ units,
      pathExists fs (joinPath dest_dir (lastSegment u.url)) = true) :
    (runUnitsFrom beh token dest_dir idx fs units).2.flatMap (fun r => r.requests) =
      [] := by
  induction units generalizing idx fs with
  | nil => rfl
  | cons u rest ih =>
    by_cases hp : beh.panics idx = true
    · rw [runUnitsFrom, if_pos hp]
      simpa using ih (idx + 1) fs (fun w hw => hcached w (List.mem_cons_of_mem _ hw))
    · have hres : download_single_file fs (beh.http idx) u.url token dest_dir =
          { requests := [], outcome := .ok (), written := none } := by
        simp [download_single_file, hcached u (List.mem_cons_self _ _)]
      rw [runUnitsFrom, if_neg hp, hres]
      simpa using ih (idx + 1) fs (fun w hw => hcached w (List.mem_cons_of_mem _ hw))
/-- C9: a unit whose destination already exists succeeds with no request and
no write; consequently, after a download run with zero failures, re-running
the downloader over the same manifest issues zero HTTP requests, whatever
the network of the second run would have answered. -/
theorem C9_idempotence (fs : FileSystem) (env : HttpEnv) (url token : String)
    (dest_dir : FsPath) (firmware_id : String) (pc : ParsedFirmwareComponents)
    (beh beh2 : DownloadBehavior) (record record2 : RackFirmwareRecord)
    (now now2 : Nat) :
    (pathExists fs (joinPath dest_dir (lastSegment url)) = true →
      download_single_file fs env url token dest_dir =
        { requests := [], outcome := .ok (), written := none })
    ∧ ((∀ r ∈ (download_firmware_files firmware_id pc token beh fs record now).2.1,
          isFailure r.outcome = false) →
        ((download_firmware_files firmware_id pc token beh2
            (download_firmware_files firmware_id pc token beh fs record now).1 record2
            now2).2.1).flatMap (fun r => r.requests) = []) := by
  constructor
  · intro hex
    simp [download_single_file, hex]
  · intro hall
    have hruns1 : (download_firmware_files firmware_id pc token beh fs record now).2.1 =
        (runUnitsFrom beh token (firmwareCacheDir firmware_id) 0
          (ensureDir fs (firmwareCacheDir firmware_id)) (spawnUnits pc)).2 := rfl
    have hfs1 : (download_firmware_files firmware_id pc token beh fs record now).1 =
        (runUnitsFrom beh token (firmwareCacheDir firmware_id) 0
          (ensureDir fs (firmwareCacheDir firmware_id)) (spawnUnits pc)).1 := rfl
    have hdir0 : (ensureDir fs (firmwareCacheDir firmware_id)).dirs.contains
        (firmwareCacheDir firmware_id) = true := ensureDir_contains fs _
    have hdests := runUnitsFrom_success_dests beh token (firmwareCacheDir firmware_id)
      (spawnUnits pc) 0 (ensureDir fs (firmwareCacheDir firmware_id)) hdir0
      (by rw [← hruns1]; exact hall)
    have hdir1 : (download_firmware_files firmware_id pc token beh fs
        record now).1.dirs.contains (firmwareCacheDir firmware_id) = true := by
      rw [hfs1]
      exact (fsLe_runUnitsFrom beh token (firmwareCacheDir firmware_id)
        (spawnUnits pc) 0 (ensureDir fs (firmwareCacheDir firmware_id))).1 _ hdir0
    have hens : ensureDir
        (download_firmware_files firmware_id pc token beh fs record now).1
        (firmwareCacheDir firmware_id) =
        (download_firmware_files firmware_id pc token beh fs record now).1 := by
      rw [ensureDir, if_pos hdir1]
    have hruns2 : (download_firmware_files firmware_id pc token beh2
        (download_firmware_files firmware_id pc token beh fs record now).1 record2
        now2).2.1 =
        (runUnitsFrom beh2 token (firmwareCacheDir firmware_id) 0
          (ensureDir (download_firmware_files firmware_id pc token beh fs record now).1
            (firmwareCacheDir firmware_id)) (spawnUnits pc)).2 := rfl
    rw [hruns2, hens]
    refine runUnitsFrom_all_cached beh2 token (firmwareCacheDir firmware_id)
      (spawnUnits pc) 0 _ ?_
    intro u hu
    rw [hfs1]
    exact hdests u hu
/-- C9, witnessed: after a fully successful run, a second run over the same
manifest issues zero HTTP requests. -/
theorem C9_idempotence_witness :
    ((download_firmware_files "fw" c9PC "tok" c9Beh2
        (download_firmware_files "fw" c9PC "tok" c9Beh { dirs := [], files := [] }
          c9Rec 1).1 c9Rec 2).2.1).flatMap (fun r => r.requests) = [] :=
  (C9_idempotence { dirs := [], files := [] }
      { withoutToken := .response 200, withToken := .response 200 } "u" "tok" []
      "fw" c9PC c9Beh c9Beh2 c9Rec c9Rec 1 2).2 (by decide)
end RackFw
